import Mathlib

/-!
Verification development for the serverflow message queue
(`src/serverflow/kernel/msgqueue.c`) and thread pool (`thrdpool.c`, provided
as `src/unnamed/part_000` with headers `part_001`/`part_002`).

Embedding conventions.

* Memory: every message carries an intrusive link cell at byte offset
  `link_off` from the payload pointer.  `payload = link − link_off` is a fixed
  bijection, so we identify a message with the numeric id of its link cell.
  The addressable link cells are `&queue->head1`, `&queue->head2` and the link
  cell of message `n`; a cell holds either the null pointer or the address of
  a message's link cell, so the heap is a function `Ptr → Option Nat`.

* `size_t` arithmetic: counts are `Nat` together with the bound `< 2^64`;
  the wrap-around of `msg_max - 1` is made explicit by `sizeT_pred`.

* Blocking: the claims settled here are about sequential executions, where a
  `pthread_cond_wait` can never be satisfied by another thread during the
  call.  An operation whose wait-loop condition holds is modelled as
  returning `none` ("never returns"); a completed call returns `some` of its
  result and the post-state.  Mutex acquire/release and condition
  signal/broadcast have no further effect on the sequential state.
-/

/-- Addresses of the pointer-sized cells the queue manipulates: the two
internal heads of `struct __msgqueue` and the link cell embedded in message
`n` (the cell at `msg + link_off`). -/
inductive Ptr where
  | h1 : Ptr
  | h2 : Ptr
  | link : Nat → Ptr
  deriving DecidableEq

/-- Contents of the link cells: `none` is the C null pointer, `some n` is the
address of message `n`'s link cell. -/
def Heap : Type := Ptr → Option Nat

/-- Store `v` into the cell at `p` (`*p = v`). -/
def heapWrite (H : Heap) (p : Ptr) (v : Option Nat) : Heap :=
  fun q => if q = p then v else H q

/-- The `size_t` value of `n - 1`: subtraction wraps modulo `2^64`, so
`0 - 1 = 2^64 - 1`. -/
def sizeT_pred (n : Nat) : Nat :=
  (n + (2 ^ 64 - 1)) % 2 ^ 64

/-- State of `struct __msgqueue` (msgqueue.c lines 7–21).  `get_head`,
`put_head`, `put_tail` are the three `void **` fields; `heap` gives the
contents of `head1`, `head2` and every message link cell.  The mutexes and
condition variables carry no sequential state. -/
structure MsgQueue where
  msg_max : Nat
  msg_cnt : Nat
  nonblock : Bool
  get_head : Ptr
  put_head : Ptr
  put_tail : Ptr
  heap : Heap

/-- The producer wait-loop condition of `msgqueue_put` (line 86):
`queue->msg_cnt > queue->msg_max - 1` in `size_t` arithmetic. -/
def msgqueue_full (q : MsgQueue) : Bool :=
  sizeT_pred q.msg_max < q.msg_cnt

/-- `msgqueue_create(maxlen, linkoff)` (lines 47–79), successful path: both
heads null, `get_head → head1`, `put_head = put_tail → head2`, count zero,
blocking mode.  `linkoff` is absorbed by the message-id bijection. -/
def msgqueue_create (maxlen : Nat) : MsgQueue :=
  { msg_max := maxlen
    msg_cnt := 0
    nonblock := false
    get_head := Ptr.h1
    put_head := Ptr.h2
    put_tail := Ptr.h2
    heap := fun _ => none }

/-- `msgqueue_put(msg, queue)` (lines 82–93): null the message's link cell,
then wait while the queue is full and blocking (sequentially: never return),
then append through `put_tail` and advance `put_tail`.  The source does NOT
increment `msg_cnt` anywhere in this function. -/
def msgqueue_put (msg : Nat) (q : MsgQueue) : Option MsgQueue :=
  let H := heapWrite q.heap (Ptr.link msg) none
  if msgqueue_full q && !q.nonblock then
    none
  else
    some { q with
            heap := heapWrite H q.put_tail (some msg)
            put_tail := Ptr.link msg }

/-- `__msgqueue_swap(queue)` (lines 23–43): remember `get_head`, point
`get_head` at the producer list, wait while `msg_cnt == 0` and blocking
(sequentially: never return), read `cnt = msg_cnt`, reset `put_head` and
`put_tail` to the remembered cell and zero `msg_cnt`.  The conditional
`pthread_cond_broadcast` (lines 34–36) has no sequential effect.  No memory
cell is written through a pointer. -/
def __msgqueue_swap (q : MsgQueue) : Option (Nat × MsgQueue) :=
  let old_get_head := q.get_head
  let q1 := { q with get_head := q.put_head }
  if q1.msg_cnt = 0 && !q1.nonblock then
    none
  else
    some (q1.msg_cnt,
          { q1 with
              put_head := old_get_head
              put_tail := old_get_head
              msg_cnt := 0 })

/-- Pop the head of the consumer list, given `*get_head = some msg`
(lines 100–101): return the payload of `msg` and store `msg`'s link
into the `get_head` cell. -/
def msgqueue_pop (msg : Nat) (q : MsgQueue) : Nat × MsgQueue :=
  (msg, { q with heap := heapWrite q.heap q.get_head (q.heap (Ptr.link msg)) })

/-- `msgqueue_get(queue)` (lines 95–107): if `*get_head` is non-null, pop;
otherwise swap, and pop when the swap reports a non-zero count, else return
null.  Result `none` means the call never returns (swap blocked);
`some (none, q)` is the C null return.  When the swap reports a non-zero
count but the relinked consumer list is empty the source dereferences null;
that state is unreachable here because `msg_cnt` is never incremented, and
the model returns null for it. -/
def msgqueue_get (q : MsgQueue) : Option (Option Nat × MsgQueue) :=
  match q.heap q.get_head with
  | some msg => some ((fun p => (some p.1, p.2)) (msgqueue_pop msg q))
  | none =>
    match __msgqueue_swap q with
    | none => none
    | some (cnt, q1) =>
      if 0 < cnt then
        match q1.heap q1.get_head with
        | some msg => some ((fun p => (some p.1, p.2)) (msgqueue_pop msg q1))
        | none => some (none, q1)
      else
        some (none, q1)

/-- Modelled from the spec: `msgqueue_set_nonblock` is declared in the header
(`src/unnamed/part_001` line 15) but its body is not under `src/`.  Spec
§4.1: "acquires both mutexes in a consistent order, sets `nonblock = true`,
broadcasts both condition variables so blocked producers and consumers
observe the change, releases."  Only the flag write affects the state. -/
def msgqueue_set_nonblock (q : MsgQueue) : MsgQueue :=
  { q with nonblock := true }

/-- Modelled from the spec: `msgqueue_set_block` is declared in the header
(`src/unnamed/part_001` line 16) but its body is not under `src/`.  Spec
§4.1: "`set_block()` — symmetric clear." -/
def msgqueue_set_block (q : MsgQueue) : MsgQueue :=
  { q with nonblock := false }

/-- Primitive effects a queue operation can perform, used to state frame
claims about `msgqueue_destory`.  `destroy_mutex true` is the `get_mutex`,
`destroy_cond true` the `get_cond`. -/
inductive QueueEffect where
  | destroy_mutex : Bool → QueueEffect
  | destroy_cond : Bool → QueueEffect
  | free_queue : QueueEffect
  | free_entry : Nat → QueueEffect
  | return_entry : Nat → QueueEffect
  | write_link : Ptr → Option Nat → QueueEffect
  deriving DecidableEq

/-- `msgqueue_destory(queue)` (lines 110–116), statement by statement:
destroy `get_mutex`, destroy `put_mutex`, destroy `put_cond`, destroy
`get_cond`, `free(queue)`.  The body contains no dequeue, no write through a
list pointer, and no free of a message entry. -/
def msgqueue_destory (_q : MsgQueue) : List QueueEffect :=
  [ QueueEffect.destroy_mutex true
  , QueueEffect.destroy_mutex false
  , QueueEffect.destroy_cond false
  , QueueEffect.destroy_cond true
  , QueueEffect.free_queue ]

/-- A `struct thrdpool_task` (`src/unnamed/part_002` lines 8–11): an opaque
`(routine, context)` pair, identified by numeric codes. -/
structure thrdpool_task where
  routine : Nat
  context : Nat
  deriving DecidableEq

/-- State of `struct __thrdpool` (`src/unnamed/part_000` lines 9–18).
`entries n` is the `task` field of the `__thrdpool_task_entry` at address
`n` (its `link` field lives in the message-queue heap as `Ptr.link n`).
`tid` models the `pthread_t tid` field, with `0` the zero-initialised
sentinel `__zero_tid`; `terminate` records whether the terminate pointer is
set.  The pool mutex and key carry no sequential state. -/
structure ThrdPool where
  msgqueue : MsgQueue
  entries : Nat → thrdpool_task
  nthreads : Nat
  stacksize : Nat
  tid : Nat
  terminate : Bool

/-- `__thrdpool_schedule(task, buf, pool)` (part_000 lines 178–183): copy
the task by value into the entry at `buf`, then `msgqueue_put(buf,
pool->msgqueue)`.  `none` when the put blocks. -/
def __thrdpool_schedule (task : thrdpool_task) (buf : Nat) (pool : ThrdPool) :
    Option ThrdPool :=
  let pool1 := { pool with
                  entries := fun n => if n = buf then task else pool.entries n }
  (msgqueue_put buf pool1.msgqueue).map
    (fun mq => { pool1 with msgqueue := mq })

/-- `thrdpool_schedule(task, pool)` (part_000 lines 185–194): `malloc` an
entry — the parameter `alloc` is `some buf` for a fresh address, `none` for
allocation failure — and on success delegate to `__thrdpool_schedule` and
return 0; on failure return −1 with everything untouched. -/
def thrdpool_schedule (alloc : Option Nat) (task : thrdpool_task)
    (pool : ThrdPool) : Option (Int × ThrdPool) :=
  match alloc with
  | some buf => (__thrdpool_schedule task buf pool).map (fun p => ((0 : Int), p))
  | none => some ((-1 : Int), pool)

/-- `thrdpool_increase(pool)` (part_000 lines 196–227).  `attr_ok` is the
result of `pthread_attr_init`, `spawn_ok` of `pthread_create`; on a
successful spawn `nthreads` is incremented under the pool mutex, on any
failure the pool is untouched and −1 is returned. -/
def thrdpool_increase (attr_ok : Bool) (spawn_ok : Bool) (pool : ThrdPool) :
    Int × ThrdPool :=
  if attr_ok then
    if spawn_ok then
      ((0 : Int), { pool with nthreads := pool.nthreads + 1 })
    else ((-1 : Int), pool)
  else ((-1 : Int), pool)

/-- The final step of `__thrdpool_terminate` (part_000 lines 91–94), after
the wait has observed `nthreads == 0` and the mutex is released:

  if (memcpy(&pool->tid, &__zero_tid, sizeof(pthread_t)) != 0)
      pthread_join(pool->tid, NULL);

`memcpy` overwrites `pool->tid` with the zero sentinel and returns its
destination argument `&pool->tid`, which is never a null pointer, so the
test is always true.  The result is the identity that is passed to
`pthread_join` (`none` when no join happens) and the post-state. -/
def __thrdpool_terminate_join (pool : ThrdPool) : Option Nat × ThrdPool :=
  let pool1 := { pool with tid := 0 }
  (some pool1.tid, pool1)

/-- Modelled from the spec: the join step that spec §9 says was intended at
part_000 lines 91–94 ("join the pool's stored final thread if non-zero.
Implement the comparison, not the copy"): compare the stored `tid` with the
zero sentinel, join it iff non-zero, and leave the stored identity intact. -/
def thrdpool_terminate_join_intended (pool : ThrdPool) : Option Nat × ThrdPool :=
  (if pool.tid ≠ 0 then some pool.tid else none, pool)

/-! Concrete fixtures used by the theorems below. -/

/-- A freshly created blocking queue with `maxlen = 1`. -/
def q_block1 : MsgQueue := msgqueue_create 1

/-- A queue with `maxlen = 1` switched to nonblock mode. -/
def q_nonblock1 : MsgQueue := { msgqueue_create 1 with nonblock := true }

/-- The state `__msgqueue_swap` produces from `q_nonblock1`. -/
def q_swapped1 : MsgQueue :=
  { msg_max := 1
    msg_cnt := 0
    nonblock := true
    get_head := Ptr.h2
    put_head := Ptr.h1
    put_tail := Ptr.h1
    heap := fun _ => none }

/-- A thread pool as `thrdpool_create` initialises it before spawning
workers (part_000 lines 144–157): queue created with `maxlen = 0`, zeroed
`tid`, no terminate signal. -/
def pool0 : ThrdPool :=
  { msgqueue := msgqueue_create 0
    entries := fun _ => { routine := 0, context := 0 }
    nthreads := 0
    stacksize := 0
    tid := 0
    terminate := false }

/-- Claim C1: `msgqueue_put` is claimed to increment `msg_cnt` by exactly
one while holding `put_mutex`.  The source never touches `msg_cnt` in
`msgqueue_put` (lines 82–93): on a fresh queue with `maxlen = 1` and
`msg_cnt = 0` the put completes and the resulting `msg_cnt` is still `0`,
not `0 + 1`. -/
theorem msgqueue_put_msg_cnt_unchanged_bug :
    (msgqueue_create 1).msg_cnt = 0 ∧
    (msgqueue_put 5 (msgqueue_create 1)).map MsgQueue.msg_cnt = some 0 ∧
    (msgqueue_put 5 (msgqueue_create 1)).map MsgQueue.msg_cnt ≠ some 1 := by
  refine ⟨rfl, rfl, ?_⟩
  decide

/-- Claim C2: sequential FIFO delivery is claimed: after `put(m1)` on a
fresh (blocking) queue, the first `get` should return `m1`.  Because
`msgqueue_put` never increments `msg_cnt`, the swap inside `msgqueue_get`
waits on `get_cond` with `msg_cnt == 0` forever: the put completes but the
subsequent `get` never returns (`none` in the sequential model). -/
theorem msgqueue_sequential_get_blocks_after_put :
    (msgqueue_put 5 (msgqueue_create 1)).isSome = true ∧
    (msgqueue_put 5 (msgqueue_create 1)).bind msgqueue_get = none :=
  ⟨rfl, rfl⟩

/-- Claim C3: `msgqueue_get` is claimed to return null only when both lists
are empty and the queue is nonblock.  On a nonblock queue holding exactly
one message on the producer side (`*put_head` is message 5), `get` returns
the null sentinel anyway: the swap reports `msg_cnt = 0` because `put`
never incremented it, even though it just reparented a non-empty list. -/
theorem msgqueue_get_returns_null_with_message_held :
    (msgqueue_put 5 q_nonblock1).map (fun q => q.heap q.put_head) =
      some (some 5) ∧
    ((msgqueue_put 5 q_nonblock1).bind msgqueue_get).map Prod.fst =
      some none :=
  ⟨rfl, rfl⟩

/-- Claim C4: the terminating caller is claimed to compare the stored final
thread identity with the zero sentinel and join it iff non-zero, leaving it
intact.  The source (part_000 line 91) calls `memcpy`, not `memcmp`: for
every pool state the stored identity is overwritten with zero and the
always-true test makes the caller join thread identity `0`; the intended
comparison at the zeroed-sentinel state joins nothing. -/
theorem thrdpool_terminate_join_memcpy_bug (pool : ThrdPool) :
    (__thrdpool_terminate_join pool).1 = some 0 ∧
    (__thrdpool_terminate_join pool).2.tid = 0 ∧
    (thrdpool_terminate_join_intended { pool with tid := 0 }).1 = none := by
  refine ⟨rfl, rfl, ?_⟩
  simp [thrdpool_terminate_join_intended]

/-- Claim C5: `set_nonblock` followed by `set_block` restores blocking
semantics: on any queue that was never switched to nonblock
(`nonblock = false`), the pair of calls is the identity on the state, so
every subsequent `put` and `get` behaves exactly as on the original
queue. -/
theorem msgqueue_set_nonblock_set_block_roundtrip (q : MsgQueue)
    (h : q.nonblock = false) :
    msgqueue_set_block (msgqueue_set_nonblock q) = q ∧
    (∀ msg, msgqueue_put msg (msgqueue_set_block (msgqueue_set_nonblock q)) =
      msgqueue_put msg q) ∧
    msgqueue_get (msgqueue_set_block (msgqueue_set_nonblock q)) =
      msgqueue_get q := by
  have hq : msgqueue_set_block (msgqueue_set_nonblock q) = q := by
    cases q
    simp_all [msgqueue_set_block, msgqueue_set_nonblock]
  exact ⟨hq, fun msg => by rw [hq], by rw [hq]⟩

/-- Witness for C5 at the fresh queue `msgqueue_create 1`. -/
theorem msgqueue_set_nonblock_set_block_roundtrip_witness :
    (msgqueue_create 1).nonblock = false ∧
    (msgqueue_set_block (msgqueue_set_nonblock (msgqueue_create 1)) =
        msgqueue_create 1 ∧
      (∀ msg, msgqueue_put msg
          (msgqueue_set_block (msgqueue_set_nonblock (msgqueue_create 1))) =
        msgqueue_put msg (msgqueue_create 1)) ∧
      msgqueue_get (msgqueue_set_block (msgqueue_set_nonblock
          (msgqueue_create 1))) =
        msgqueue_get (msgqueue_create 1)) :=
  ⟨rfl, msgqueue_set_nonblock_set_block_roundtrip (msgqueue_create 1) rfl⟩

/-- Claim C6: for a queue with `msg_max = 0` in blocking mode, the producer
fullness predicate `msg_cnt > msg_max - 1` is evaluated in `size_t`
arithmetic, where `0 - 1 = 2^64 - 1`; no representable `msg_cnt` exceeds
it, so the wait-loop condition of `msgqueue_put` is false and the put
always completes without waiting on `put_cond`. -/
theorem msgqueue_put_never_waits_when_max_zero (q : MsgQueue) (msg : Nat)
    (hmax : q.msg_max = 0) (hcnt : q.msg_cnt < 2 ^ 64) :
    msgqueue_full q = false ∧ (msgqueue_put msg q).isSome = true := by
  have hfull : msgqueue_full q = false := by
    have hp : sizeT_pred 0 = 2 ^ 64 - 1 := by
      unfold sizeT_pred
      norm_num
    unfold msgqueue_full
    rw [hmax, hp]
    simp only [decide_eq_false_iff_not, not_lt]
    omega
  refine ⟨hfull, ?_⟩
  unfold msgqueue_put
  rw [hfull]
  simp

/-- Witness for C6 at the queue `thrdpool_create` builds
(`msgqueue_create 0`). -/
theorem msgqueue_put_never_waits_when_max_zero_witness :
    ((msgqueue_create 0).msg_max = 0 ∧ (msgqueue_create 0).msg_cnt < 2 ^ 64) ∧
    (msgqueue_full (msgqueue_create 0) = false ∧
      (msgqueue_put 3 (msgqueue_create 0)).isSome = true) :=
  ⟨⟨rfl, by norm_num [msgqueue_create]⟩,
    msgqueue_put_never_waits_when_max_zero (msgqueue_create 0) 3 rfl
      (by norm_num [msgqueue_create])⟩

/-- Claim C7: whenever `__msgqueue_swap` returns — having been entered, as
`msgqueue_get` enters it, with the consumer list empty (`*get_head` null) —
the new `put_head` and `put_tail` both equal the value `get_head` held on
entry, the producer-side list is empty (`put_head = put_tail` and the cell
they point at is null), and `msg_cnt = 0`. -/
theorem __msgqueue_swap_postcondition (q : MsgQueue) (cnt : Nat)
    (q1 : MsgQueue) (hswap : __msgqueue_swap q = some (cnt, q1))
    (hempty : q.heap q.get_head = none) :
    q1.put_head = q.get_head ∧ q1.put_tail = q.get_head ∧
    q1.put_head = q1.put_tail ∧ q1.heap q1.put_head = none ∧
    q1.msg_cnt = 0 := by
  simp only [__msgqueue_swap] at hswap
  split at hswap
  · exact absurd hswap (by simp)
  · rw [Option.some_inj, Prod.mk.injEq] at hswap
    obtain ⟨h1, h2⟩ := hswap
    subst h2
    exact ⟨rfl, rfl, rfl, hempty, rfl⟩

/-- Witness for C7: the swap on the nonblock queue `q_nonblock1` returns
count 0 and the state `q_swapped1`. -/
theorem __msgqueue_swap_postcondition_witness :
    (__msgqueue_swap q_nonblock1 = some (0, q_swapped1) ∧
      q_nonblock1.heap q_nonblock1.get_head = none) ∧
    (q_swapped1.put_head = q_nonblock1.get_head ∧
      q_swapped1.put_tail = q_nonblock1.get_head ∧
      q_swapped1.put_head = q_swapped1.put_tail ∧
      q_swapped1.heap q_swapped1.put_head = none ∧
      q_swapped1.msg_cnt = 0) :=
  ⟨⟨rfl, rfl⟩,
    __msgqueue_swap_postcondition q_nonblock1 0 q_swapped1 rfl rfl⟩

/-- The effect a successful `thrdpool_schedule` has on the pool: the entry
at `buf` holds a by-value copy of the task, all other entries are
untouched, the queue gained exactly one link — the new tail cell is message
`buf`'s link, the old tail cell now points at it, its own link is null,
every other cell is unchanged — and every remaining queue and pool field is
unchanged. -/
def thrdpool_schedule_effect (pool pool1 : ThrdPool) (task : thrdpool_task)
    (buf : Nat) : Prop :=
  pool1.entries buf = task ∧
  (∀ n, n ≠ buf → pool1.entries n = pool.entries n) ∧
  pool1.msgqueue.put_tail = Ptr.link buf ∧
  pool1.msgqueue.heap pool.msgqueue.put_tail = some buf ∧
  pool1.msgqueue.heap (Ptr.link buf) = none ∧
  (∀ p, p ≠ pool.msgqueue.put_tail → p ≠ Ptr.link buf →
    pool1.msgqueue.heap p = pool.msgqueue.heap p) ∧
  pool1.msgqueue.msg_max = pool.msgqueue.msg_max ∧
  pool1.msgqueue.msg_cnt = pool.msgqueue.msg_cnt ∧
  pool1.msgqueue.nonblock = pool.msgqueue.nonblock ∧
  pool1.msgqueue.get_head = pool.msgqueue.get_head ∧
  pool1.msgqueue.put_head = pool.msgqueue.put_head ∧
  pool1.nthreads = pool.nthreads ∧
  pool1.stacksize = pool.stacksize ∧
  pool1.tid = pool.tid ∧
  pool1.terminate = pool.terminate

/-- Claim C8: `thrdpool_schedule` fails exactly when the entry allocation
fails.  On allocation failure it returns −1 and the pool (queue included)
is unchanged; on allocation of a fresh entry `buf` — the queue not being
full, as holds for every pool-created queue — it returns 0 having enqueued
exactly that one entry, holding a by-value copy of the task. -/
theorem thrdpool_schedule_characterization (pool : ThrdPool)
    (task : thrdpool_task) (buf : Nat)
    (hfull : msgqueue_full pool.msgqueue = false)
    (hfresh : pool.msgqueue.put_tail ≠ Ptr.link buf) :
    thrdpool_schedule none task pool = some (-1, pool) ∧
    ∃ pool1, thrdpool_schedule (some buf) task pool = some (0, pool1) ∧
      thrdpool_schedule_effect pool pool1 task buf := by
  refine ⟨rfl, ?_⟩
  have hput : msgqueue_put buf pool.msgqueue =
      some { pool.msgqueue with
              heap := heapWrite (heapWrite pool.msgqueue.heap (Ptr.link buf)
                none) pool.msgqueue.put_tail (some buf)
              put_tail := Ptr.link buf } := by
    unfold msgqueue_put
    rw [hfull]
    rfl
  refine ⟨{ pool with
            entries := fun n => if n = buf then task else pool.entries n
            msgqueue := { pool.msgqueue with
              heap := heapWrite (heapWrite pool.msgqueue.heap (Ptr.link buf)
                none) pool.msgqueue.put_tail (some buf)
              put_tail := Ptr.link buf } }, ?_, ?_⟩
  · simp only [thrdpool_schedule, __thrdpool_schedule]
    rw [hput]
    rfl
  · have hfresh1 : Ptr.link buf ≠ pool.msgqueue.put_tail :=
      fun h => hfresh h.symm
    unfold thrdpool_schedule_effect
    refine ⟨by simp, fun n hn => by simp [hn], rfl, ?_, ?_, ?_, rfl, rfl, rfl,
      rfl, rfl, rfl, rfl, rfl, rfl⟩
    · simp [heapWrite]
    · simp [heapWrite, hfresh1]
    · intro p hp1 hp2
      simp [heapWrite, hp1, hp2]

/-- Witness for C8 at the freshly initialised pool `pool0` with entry
address 7. -/
theorem thrdpool_schedule_characterization_witness :
    (msgqueue_full pool0.msgqueue = false ∧
      pool0.msgqueue.put_tail ≠ Ptr.link 7) ∧
    (thrdpool_schedule none { routine := 1, context := 2 } pool0 =
        some (-1, pool0) ∧
      ∃ pool1, thrdpool_schedule (some 7) { routine := 1, context := 2 }
          pool0 = some (0, pool1) ∧
        thrdpool_schedule_effect pool0 pool1 { routine := 1, context := 2 }
          7) :=
  ⟨⟨by decide, by decide⟩,
    thrdpool_schedule_characterization pool0 { routine := 1, context := 2 } 7
      (by decide) (by decide)⟩

/-- Claim C9: `thrdpool_increase` increments `nthreads` by exactly one and
changes nothing else when the spawn succeeds; when `pthread_create` or
`pthread_attr_init` fails it returns −1 with the pool unchanged. -/
theorem thrdpool_increase_characterization (pool : ThrdPool)
    (spawn_ok : Bool) :
    thrdpool_increase true true pool =
      (0, { pool with nthreads := pool.nthreads + 1 }) ∧
    thrdpool_increase true false pool = (-1, pool) ∧
    thrdpool_increase false spawn_ok pool = (-1, pool) :=
  ⟨rfl, rfl, rfl⟩

/-- Claim C10: `msgqueue_destory` destroys the two mutexes and the two
condition variables and frees only the queue structure itself: its effect
trace contains no entry dequeue, no entry free, and no write to any link
cell, so messages still linked on either list are untouched. -/
theorem msgqueue_destory_frame (q : MsgQueue) :
    QueueEffect.free_queue ∈ msgqueue_destory q ∧
    QueueEffect.destroy_mutex true ∈ msgqueue_destory q ∧
    QueueEffect.destroy_mutex false ∈ msgqueue_destory q ∧
    QueueEffect.destroy_cond true ∈ msgqueue_destory q ∧
    QueueEffect.destroy_cond false ∈ msgqueue_destory q ∧
    (∀ n, QueueEffect.free_entry n ∉ msgqueue_destory q) ∧
    (∀ n, QueueEffect.return_entry n ∉ msgqueue_destory q) ∧
    (∀ p v, QueueEffect.write_link p v ∉ msgqueue_destory q) := by
  simp [msgqueue_destory]
